import Mathlib

/-!
Shallow embedding of the client-side favorites store actions, the watch
history enrichment fold, the History page delete handler and the retrying
fetch helper of the media-streaming front-end, together with theorems about
their optimistic-update, rollback, retry and enrichment behaviour.
-/

/-- A show object as passed to the favorites actions.  Only the fields the
embedded code reads are modelled: the numeric `id`, the media `type`, the
optional season and episode numbers and the two title fields (either of
which may be absent, as in the JS objects). -/
structure ShowItem where
  id : Int
  type : String
  season_number : Option Nat
  episode_number : Option Nat
  name : Option String
  title : Option String
deriving DecidableEq

/-- Kind of a toast notification shown to the user. -/
inductive NotificationKind where
  | success
  | error
deriving DecidableEq

/-- A toast notification: its kind and its message text. -/
structure Notification where
  kind : NotificationKind
  message : String
deriving DecidableEq

/-- A remote persistence call issued by the favorites actions: the Supabase
insert into `favorites` or the delete matched on user, media id and type. -/
inductive RemoteCall where
  | insert (user_id : String) (media_id : Int) (media_type : String)
  | delete (user_id : String) (media_id : Int) (media_type : String)
deriving DecidableEq

/-- The observable store state: the ordered favorites list and the
`favoritedMedia` membership index.  The JS `Set` is modelled as its
insertion-ordered list of distinct keys (`add` appends a key not yet
present, `delete` filters it out), so snapshot equality is exact. -/
structure StoreState where
  favorites : List ShowItem
  favoritedMedia : List String
deriving DecidableEq

/-- JS template interpolation of a possibly-undefined string value. -/
def jsStr : Option String → String
  | some s => s
  | none => "undefined"

/-- JS `a || b` over the two optional title fields as interpolated into a
template literal: the empty string is falsy and `undefined` prints as
itself. -/
def jsOrTitle (a b : Option String) : String :=
  match a with
  | some s => if s = "" then jsStr b else s
  | none => jsStr b

/-- The `show.name || show.title` display name used in the toast texts. -/
def displayName (s : ShowItem) : String := jsOrTitle s.name s.title

/-- The membership key computed by the favorites actions: the template
literal `showId-tv` — only the numeric id varies, the media type part is
the constant string `tv`. -/
def favoriteKey (showId : Int) : String := toString showId ++ "-tv"

/-- The key computed for a show object (`favoriteKey show.id`). -/
def keyOfShow (s : ShowItem) : String := favoriteKey s.id

/-- `Set.prototype.add` on the insertion-ordered key list. -/
def setAdd (s : List String) (k : String) : List String :=
  if s.contains k then s else s ++ [k]

/-- `Set.prototype.delete` on the insertion-ordered key list. -/
def setDelete (s : List String) (k : String) : List String :=
  s.filter (fun x => x != k)

/-- Everything observable after one favorites action settles: the final
store state, the toasts emitted (in order) and the remote calls issued. -/
structure ActionResult where
  state : StoreState
  notifications : List Notification
  remoteCalls : List RemoteCall
deriving DecidableEq

/-- `addFavoriteShow show`: toast and bail out when unauthenticated; no-op
when the key is already favorited; otherwise prepend the entry and insert
the key optimistically, toast success, issue the remote insert and, when it
fails, revert by deleting the key and filtering the list on the numeric id
(the failure is only logged — no further toast).  `user` is the
authenticated identity (`none` when logged out) and `insertFails` is
whether the remote insert returns an error. -/
def addFavoriteShow (user : Option String) (s : ShowItem) (st : StoreState)
    (insertFails : Bool) : ActionResult :=
  match user with
  | none =>
    { state := st
      notifications := [⟨.error, "You need to be logged in to save favorites."⟩]
      remoteCalls := [] }
  | some uid =>
    let showId := s.id
    let fKey := favoriteKey showId
    if st.favoritedMedia.contains fKey then
      { state := st, notifications := [], remoteCalls := [] }
    else
      let optimistic : StoreState :=
        { favorites := { s with type := "tv" } :: st.favorites
          favoritedMedia := setAdd st.favoritedMedia fKey }
      let notifs : List Notification :=
        [⟨.success, "'" ++ displayName s ++ "' has been added to your Favorites."⟩]
      let calls : List RemoteCall := [.insert uid showId "tv"]
      if insertFails then
        { state :=
            { favorites := optimistic.favorites.filter (fun f => f.id != showId)
              favoritedMedia := setDelete optimistic.favoritedMedia fKey }
          notifications := notifs
          remoteCalls := calls }
      else
        { state := optimistic, notifications := notifs, remoteCalls := calls }

/-- `removeFavoriteShow show`: silent no-op when unauthenticated; otherwise
snapshot the list and the index, optimistically filter both, toast the
removal notice, issue the remote delete and, when it fails, restore the
exact snapshot and toast a failure notice. -/
def removeFavoriteShow (user : Option String) (s : ShowItem) (st : StoreState)
    (deleteFails : Bool) : ActionResult :=
  match user with
  | none => { state := st, notifications := [], remoteCalls := [] }
  | some uid =>
    let showId := s.id
    let fKey := favoriteKey showId
    let originalFavorites := st.favorites
    let originalFavoritedMedia := st.favoritedMedia
    let optimistic : StoreState :=
      { favorites := st.favorites.filter (fun fav => fav.id != showId)
        favoritedMedia := st.favoritedMedia.filter (fun id => id != fKey) }
    let notifs : List Notification :=
      [⟨.error, "'" ++ displayName s ++ "' has been removed from your Favorites."⟩]
    let calls : List RemoteCall := [.delete uid showId "tv"]
    if deleteFails then
      { state := { favorites := originalFavorites, favoritedMedia := originalFavoritedMedia }
        notifications :=
          notifs ++ [⟨.error, "Failed to remove '" ++ displayName s ++ "' from favorites."⟩]
        remoteCalls := calls }
    else
      { state := optimistic, notifications := notifs, remoteCalls := calls }

/-- `isShowFavorited showId`: the O(1) membership test on the index. -/
def isShowFavorited (st : StoreState) (showId : Int) : Bool :=
  st.favoritedMedia.contains (favoriteKey showId)

/-- The TMDB detail record decoded from the primary metadata response, as
far as the enrichment code reads it. -/
structure Details where
  id : Int
  title : Option String
  name : Option String
  poster_path : Option String
  overview : Option String
deriving DecidableEq

/-- The TMDB episode detail record read by the secondary fetch. -/
structure EpisodeDetails where
  name : String
  still_path : Option String
  overview : String
deriving DecidableEq

/-- A raw watch-history row as returned by `getWatchHistoryWithProgress`. -/
structure HistoryRecord where
  user_id : String
  media_id : Int
  media_type : String
  season_number : Option Nat
  episode_number : Option Nat
  watched_at : String
  progress_seconds : Nat
  duration_seconds : Nat
deriving DecidableEq

/-- One display-ready history item as produced by the enrichment fold,
with all the fields either branch of the code can set. -/
structure EnrichedItem where
  id : Int
  watch_id : String
  type : String
  media_type : String
  media_id : Int
  season_number : Option Nat
  episode_number : Option Nat
  watched_at : String
  title : Option String
  name : Option String
  poster_path : Option String
  overview : Option String
  episode_name : Option String
  still_path : Option String
  episode_overview : Option String
  failed_to_load : Bool
  progress_seconds : Nat
  duration_seconds : Nat
deriving DecidableEq

/-- The unique deletion key built for each history item:
`userId-mediaId-mediaType-season-episode` with `|| 0` defaults. -/
def watchId (item : HistoryRecord) : String :=
  item.user_id ++ "-" ++ toString item.media_id ++ "-" ++ item.media_type ++ "-" ++
    toString (item.season_number.getD 0) ++ "-" ++ toString (item.episode_number.getD 0)

/-- JS truthiness of an optional numeric field (`undefined` and `0` are
falsy). -/
def optNatTruthy : Option Nat → Bool
  | some n => n != 0
  | none => false

/-- The placeholder item built in the per-record catch block: carries the
raw record's identifiers and progress, a synthetic title, and the
`_failed_to_load` flag, instead of dropping the entry or yielding null. -/
def placeholderItem (item : HistoryRecord) : EnrichedItem :=
  { id := item.media_id
    watch_id := watchId item
    type := item.media_type
    media_type := item.media_type
    media_id := item.media_id
    season_number := item.season_number
    episode_number := item.episode_number
    watched_at := item.watched_at
    title := some (if item.media_type = "tv" then "Unknown TV Show" else "Unknown Movie")
    name := if item.media_type = "tv" then some "Unknown TV Show" else none
    poster_path := none
    overview := some "Details could not be loaded"
    episode_name := none
    still_path := none
    episode_overview := none
    failed_to_load := true
    progress_seconds := item.progress_seconds
    duration_seconds := item.duration_seconds }

/-- One arm of the enrichment fan-out (the async callback mapped over the
raw records).  `primary` is the settled outcome of the primary metadata
fetch-with-retry plus JSON decode; `episodeFetch` is the settled outcome of
the episode-detail fetch, consulted only for TV episodes, whose failure
degrades gracefully to the primary result.  Any primary failure yields the
placeholder. -/
def enrichItem (item : HistoryRecord) (primary : Except String Details)
    (episodeFetch : Except String EpisodeDetails) : EnrichedItem :=
  match primary with
  | .error _ => placeholderItem item
  | .ok details =>
    let result : EnrichedItem :=
      { id := details.id
        watch_id := watchId item
        type := item.media_type
        media_type := item.media_type
        media_id := item.media_id
        season_number := item.season_number
        episode_number := item.episode_number
        watched_at := item.watched_at
        title := details.title
        name := details.name
        poster_path := details.poster_path
        overview := details.overview
        episode_name := none
        still_path := none
        episode_overview := none
        failed_to_load := false
        progress_seconds := item.progress_seconds
        duration_seconds := item.duration_seconds }
    if item.media_type = "tv" ∧ optNatTruthy item.season_number ∧
        optNatTruthy item.episode_number then
      match episodeFetch with
      | .ok ep =>
        { result with
            episode_name := some ep.name
            still_path := ep.still_path
            episode_overview := some ep.overview }
      | .error _ => result
    else result

/-- A settled promise, as `Promise.allSettled` reports it. -/
inductive Settled (α : Type) where
  | fulfilled (value : α)
  | rejected (reason : String)
deriving DecidableEq

/-- `Promise.allSettled` over the per-record enrichment callbacks.  Every
promise fulfils, because the callback catches every failure of its own
awaits and returns an object in both branches. -/
def detailedHistory (records : List HistoryRecord)
    (primary : HistoryRecord → Except String Details)
    (episodeFetch : HistoryRecord → Except String EpisodeDetails) :
    List (Settled EnrichedItem) :=
  records.map (fun r => .fulfilled (enrichItem r (primary r) (episodeFetch r)))

/-- The final filter-and-map over the settled results: keep fulfilled
results with a truthy value (a JS object is always truthy, so a fulfilled
enrichment result is never discarded here). -/
def successfulResults (settled : List (Settled EnrichedItem)) : List EnrichedItem :=
  settled.filterMap (fun r =>
    match r with
    | .fulfilled v => some v
    | .rejected _ => none)

/-- The enrichment pipeline of `fetchHistory`: fan the raw records out
through the per-record enrichment, collect the settled results and keep the
successful ones. -/
def enrichHistory (records : List HistoryRecord)
    (primary : HistoryRecord → Except String Details)
    (episodeFetch : HistoryRecord → Except String EpisodeDetails) :
    List EnrichedItem :=
  successfulResults (detailedHistory records primary episodeFetch)

/-- Modelled from the spec: `deleteWatchItem` lives in `utils/watchHistory`,
which is not among the sources.  Per the spec's remote-mutation failure
semantics, a failing remote delete leaves the remote store unchanged and a
succeeding one removes the item; the remote watch-history store is
abstracted as the list of stored `watch_id` keys. -/
def deleteWatchItem (remote : List String) (w : String) (deleteFails : Bool) :
    List String :=
  if deleteFails then remote else remote.filter (fun x => x != w)

/-- The visible outcome of the History page delete handler: the displayed
history list and the remote watch-history store. -/
structure DeleteOutcome where
  history : List EnrichedItem
  remote : List String
deriving DecidableEq

/-- The History page delete handler: optimistically filter the displayed
list on `watch_id`, then call the remote delete; its failure is only
logged — the catch block performs no restoration of the removed item. -/
def handleDelete (history : List EnrichedItem) (remote : List String)
    (itemToDelete : EnrichedItem) (deleteFails : Bool) : DeleteOutcome :=
  let newHistory := history.filter (fun item => item.watch_id != itemToDelete.watch_id)
  { history := newHistory
    remote := deleteWatchItem remote itemToDelete.watch_id deleteFails }

/-- An HTTP response as `fetchWithRetry` inspects it. -/
structure Response where
  ok : Bool
  status : Nat
  statusText : String
deriving DecidableEq

/-- What one loop iteration of `fetchWithRetry` observes from the race of
the fetch against the 10s timeout: the timeout fires first, the fetch
itself rejects, or a response arrives. -/
inductive AttemptOutcome where
  | timeout
  | fetchError (msg : String)
  | response (r : Response)
deriving DecidableEq

/-- The try-block of one iteration of `fetchWithRetry`: a timeout or fetch
rejection is an error, a non-ok response throws `HTTP status: statusText`,
an ok response is returned. -/
def attemptResult (o : AttemptOutcome) : Except String Response :=
  match o with
  | .timeout => .error "Request timeout"
  | .fetchError m => .error m
  | .response r =>
    if r.ok then .ok r
    else .error ("HTTP " ++ toString r.status ++ ": " ++ r.statusText)

/-- The retry loop of `fetchWithRetry` from iteration `i` on, with attempt
outcomes supplied by `oracle`.  Returns the settled result — `Except.ok
none` models the implicit `undefined` resolution when the loop body never
runs — together with the total number of attempts performed: a success at
iteration `i` returns it at once, the error of the last iteration
(`i = maxRetries - 1`) is rethrown, any earlier error backs off and
retries. -/
def fetchWithRetryGo (oracle : Nat → AttemptOutcome) (maxRetries : Nat) (i : Nat) :
    Except String (Option Response) × Nat :=
  if _h : i < maxRetries then
    match attemptResult (oracle i) with
    | .ok r => (.ok (some r), i + 1)
    | .error e =>
      if i = maxRetries - 1 then (.error e, i + 1)
      else fetchWithRetryGo oracle maxRetries (i + 1)
  else (.ok none, i)
termination_by maxRetries - i
decreasing_by omega

/-- `fetchWithRetry url maxRetries delay`: the whole loop, starting at
iteration 0.  `maxRetries` is an `Int` because a JS caller may pass a
negative count, in which case the `for` loop guard fails immediately. -/
def fetchWithRetry (oracle : Nat → AttemptOutcome) (maxRetries : Int) :
    Except String (Option Response) × Nat :=
  fetchWithRetryGo oracle maxRetries.toNat 0

/-- Concrete show: a plain TV entry with id 42. -/
def showTv42 : ShowItem := ⟨42, "tv", none, none, some "Some Show", none⟩

/-- Concrete show: a movie sharing id 42. -/
def showMovie42 : ShowItem := ⟨42, "movie", none, none, none, some "The Answer"⟩

/-- Concrete show: a TV episode entry sharing id 42 (season 1, episode 2). -/
def showTv42s1e2 : ShowItem := ⟨42, "tv", some 1, some 2, some "Some Show", none⟩

/-- Concrete store: empty list and index. -/
def emptyStore : StoreState := ⟨[], []⟩

/-- Concrete store: show 42 favorited, list and index in agreement. -/
def storeWith42 : StoreState := ⟨[showTv42], [favoriteKey 42]⟩

theorem filter_bne_eq_self {α β : Type} [BEq β] [LawfulBEq β]
    (l : List α) (f : α → β) (k : β) (h : ∀ x ∈ l, f x ≠ k) :
    (l.filter fun x => f x != k) = l := by
  induction l with
  | nil => rfl
  | cons a t ih =>
    rw [List.filter_cons]
    have ha : (f a != k) = true := by
      simpa [bne_iff_ne] using h a (List.mem_cons_self a t)
    rw [if_pos ha, ih (fun x hx => h x (List.mem_cons_of_mem a hx))]

theorem any_beq_filter_bne {α β : Type} [BEq β] [LawfulBEq β]
    (l : List α) (f : α → β) (k : β) :
    ((l.filter fun x => f x != k).any fun x => f x == k) = false := by
  induction l with
  | nil => rfl
  | cons a t ih =>
    rw [List.filter_cons]
    by_cases h : (f a == k) = true
    · have hb : (f a != k) = false := by simp [bne, h]
      rw [if_neg (by simp [hb]), ih]
    · have hb : (f a != k) = true := by simp [bne, h]
      rw [if_pos hb, List.any_cons, ih]
      simp [h]

theorem contains_eq_false_forall {l : List String} {k : String}
    (h : l.contains k = false) : ∀ x ∈ l, x ≠ k := by
  intro x hx hxk
  subst hxk
  simp only [List.contains, List.elem_eq_mem, decide_eq_false_iff_not] at h
  exact h hx

theorem filter_self_bne_eq_self {l : List String} {k : String}
    (h : ∀ x ∈ l, x ≠ k) : (l.filter fun x => x != k) = l := by
  induction l with
  | nil => rfl
  | cons a t ih =>
    rw [List.filter_cons]
    have ha : (a != k) = true := by
      simpa [bne_iff_ne] using h a (List.mem_cons_self a t)
    rw [if_pos ha, ih (fun x hx => h x (List.mem_cons_of_mem a hx))]

theorem setDelete_setAdd_of_contains_false {l : List String} {k : String}
    (h : l.contains k = false) : setDelete (setAdd l k) k = l := by
  unfold setAdd setDelete
  rw [h]
  simp only [Bool.false_eq_true, if_false, List.filter_append]
  rw [filter_self_bne_eq_self (contains_eq_false_forall h)]
  simp

/-- The settled result of an authenticated add that passes the not-yet-
favorited guard and whose remote insert fails, spelled out. -/
theorem addFavoriteShow_guard_failure (uid : String) (s : ShowItem) (st : StoreState)
    (hkey : st.favoritedMedia.contains (favoriteKey s.id) = false) :
    addFavoriteShow (some uid) s st true =
      { state :=
          { favorites :=
              (({ s with type := "tv" } : ShowItem) :: st.favorites).filter
                (fun f => f.id != s.id)
            favoritedMedia :=
              setDelete (setAdd st.favoritedMedia (favoriteKey s.id)) (favoriteKey s.id) }
        notifications :=
          [⟨.success, "'" ++ displayName s ++ "' has been added to your Favorites."⟩]
        remoteCalls := [.insert uid s.id "tv"] } := by
  have hmem : favoriteKey s.id ∉ st.favoritedMedia := by
    simpa only [List.contains, List.elem_eq_mem, decide_eq_false_iff_not] using hkey
  unfold addFavoriteShow
  simp [hkey, hmem]

theorem addFavoriteShow_guard_failure_favorites (uid : String) (s : ShowItem)
    (st : StoreState) (hkey : st.favoritedMedia.contains (favoriteKey s.id) = false) :
    (addFavoriteShow (some uid) s st true).state.favorites =
      st.favorites.filter (fun f => f.id != s.id) := by
  rw [addFavoriteShow_guard_failure uid s st hkey]
  rw [List.filter_cons]
  simp

/-- Claim C1 counterexample: an authenticated add of a not-yet-favorited
entry whose remote insert fails surfaces no error notification — the only
toast emitted is the optimistic success notice, the failure being merely
logged to the console. -/
theorem addFavorite_failure_no_error_notification_cex :
    ((addFavoriteShow (some "user-1") showTv42 emptyStore true).notifications.any
      (fun n => n.kind == NotificationKind.error)) = false ∧
    (addFavoriteShow (some "user-1") showTv42 emptyStore true).state = emptyStore := by
  constructor
  · rfl
  · rfl

/-- Claim C1 (amended): for every authenticated add of a not-yet-favorited
entry, with the membership index and the list in agreement on the entry's
id, if the remote insert fails then after the call settles the state equals
the pre-call state — `isMember(key)` is false and the entry is absent from
the favorites list — but no error notification is surfaced to the user: the
failure is only logged, the optimistic success toast being the lone
notification. -/
theorem addFavorite_remoteFailure_exact_rollback
    (uid : String) (s : ShowItem) (st : StoreState)
    (hkey : st.favoritedMedia.contains (favoriteKey s.id) = false)
    (hagree : ∀ f ∈ st.favorites, f.id ≠ s.id) :
    (addFavoriteShow (some uid) s st true).state = st ∧
    isShowFavorited (addFavoriteShow (some uid) s st true).state s.id = false ∧
    ((addFavoriteShow (some uid) s st true).state.favorites.any
      (fun f => f.id == s.id)) = false ∧
    ((addFavoriteShow (some uid) s st true).notifications.any
      (fun n => n.kind == NotificationKind.error)) = false := by
  have hstate : (addFavoriteShow (some uid) s st true).state = st := by
    rw [addFavoriteShow_guard_failure uid s st hkey]
    have hfav :
        ((({ s with type := "tv" } : ShowItem) :: st.favorites).filter
          (fun f => f.id != s.id)) = st.favorites := by
      rw [List.filter_cons]
      simp only [bne_self_eq_false, Bool.false_eq_true, if_false]
      exact filter_bne_eq_self st.favorites (fun f => f.id) s.id hagree
    have hidx :
        setDelete (setAdd st.favoritedMedia (favoriteKey s.id)) (favoriteKey s.id) =
          st.favoritedMedia := setDelete_setAdd_of_contains_false hkey
    simp [hfav, hidx]
  refine ⟨hstate, ?_, ?_, ?_⟩
  · rw [hstate]
    exact hkey
  · rw [hstate]
    simp only [List.any_eq_false]
    intro f hf
    simpa using hagree f hf
  · rw [addFavoriteShow_guard_failure uid s st hkey]
    rfl

/-- Claim C1 (amended) witness at a concrete input: user `user-1` adds the
TV show with id 42 to the empty store and the remote insert fails. -/
theorem addFavorite_remoteFailure_exact_rollback_witness :
    emptyStore.favoritedMedia.contains (favoriteKey showTv42.id) = false ∧
    ((addFavoriteShow (some "user-1") showTv42 emptyStore true).state = emptyStore ∧
      isShowFavorited (addFavoriteShow (some "user-1") showTv42 emptyStore true).state
        showTv42.id = false ∧
      ((addFavoriteShow (some "user-1") showTv42 emptyStore true).state.favorites.any
        (fun f => f.id == showTv42.id)) = false ∧
      ((addFavoriteShow (some "user-1") showTv42 emptyStore true).notifications.any
        (fun n => n.kind == NotificationKind.error)) = false) :=
  ⟨rfl, addFavorite_remoteFailure_exact_rollback "user-1" showTv42 emptyStore rfl
    (by intro f hf; simp [emptyStore] at hf)⟩

/-- Claim C2: an authenticated remove whose remote delete fails restores
the exact pre-removal snapshot of the favorites list and the membership
index — whatever entries they held, related to the removed key or not. -/
theorem removeFavorite_remoteFailure_restores_snapshot
    (uid : String) (s : ShowItem) (st : StoreState) :
    (removeFavoriteShow (some uid) s st true).state = st := rfl

/-- Claim C5 counterexample: a movie with id 42 and a TV episode entry with
id 42 (season 1, episode 2) differ in media type, season and episode, yet
their computed membership keys are the same string `42-tv`. -/
theorem favoriteKey_collision_cex :
    keyOfShow showMovie42 = keyOfShow showTv42s1e2 ∧
    keyOfShow showMovie42 = "42-tv" ∧
    showMovie42.id = showTv42s1e2.id ∧
    showMovie42.type ≠ showTv42s1e2.type ∧
    showMovie42.season_number ≠ showTv42s1e2.season_number ∧
    showMovie42.episode_number ≠ showTv42s1e2.episode_number := by
  refine ⟨rfl, by decide, rfl, by decide, by decide, by decide⟩

/-- Claim C5 (amended): the membership key depends on the numeric item id
alone — the media-type component is the constant `tv` and season/episode
never enter it — so any two entries sharing an id compute the same key,
membership tests agree for them, and an authenticated remove of one mutates
the store exactly as a remove of the other would. -/
theorem favoriteKey_depends_only_on_id (a b : ShowItem) (h : a.id = b.id) :
    keyOfShow a = keyOfShow b ∧
    (∀ st : StoreState, isShowFavorited st a.id = isShowFavorited st b.id) ∧
    (∀ uid : String, ∀ st : StoreState, ∀ deleteFails : Bool,
      (removeFavoriteShow (some uid) a st deleteFails).state =
        (removeFavoriteShow (some uid) b st deleteFails).state) := by
  refine ⟨?_, ?_, ?_⟩
  · unfold keyOfShow
    rw [h]
  · intro st
    unfold isShowFavorited
    rw [h]
  · intro uid st deleteFails
    unfold removeFavoriteShow
    rw [h]
    cases deleteFails <;> rfl

/-- Claim C5 (amended) witness at a concrete input: the movie with id 42
and the TV episode entry with id 42. -/
theorem favoriteKey_depends_only_on_id_witness :
    showMovie42.id = showTv42s1e2.id ∧
    (keyOfShow showMovie42 = keyOfShow showTv42s1e2 ∧
      (∀ st : StoreState,
        isShowFavorited st showMovie42.id = isShowFavorited st showTv42s1e2.id) ∧
      (∀ uid : String, ∀ st : StoreState, ∀ deleteFails : Bool,
        (removeFavoriteShow (some uid) showMovie42 st deleteFails).state =
          (removeFavoriteShow (some uid) showTv42s1e2 st deleteFails).state)) :=
  ⟨rfl, favoriteKey_depends_only_on_id showMovie42 showTv42s1e2 rfl⟩

/-- Claim C6: an add invoked with no authenticated identity fails with the
login-required error notice and changes nothing — the list and index are
untouched and no remote call is issued (so the remote store is untouched
too). -/
theorem addFavorite_unauthenticated_no_state_change (s : ShowItem) (st : StoreState)
    (insertFails : Bool) :
    (addFavoriteShow none s st insertFails).state = st ∧
    (addFavoriteShow none s st insertFails).remoteCalls = [] ∧
    (addFavoriteShow none s st insertFails).notifications =
      [⟨NotificationKind.error, "You need to be logged in to save favorites."⟩] :=
  ⟨rfl, rfl, rfl⟩

/-- Claim C7: adding an entry whose membership key is already present in
the index is a no-op — the state is unchanged, no notification is emitted
and no remote call is issued. -/
theorem addFavorite_idempotent_when_present (uid : String) (s : ShowItem)
    (st : StoreState) (insertFails : Bool)
    (h : st.favoritedMedia.contains (favoriteKey s.id) = true) :
    (addFavoriteShow (some uid) s st insertFails).state = st ∧
    (addFavoriteShow (some uid) s st insertFails).notifications = [] ∧
    (addFavoriteShow (some uid) s st insertFails).remoteCalls = [] := by
  have hmem : favoriteKey s.id ∈ st.favoritedMedia := by
    simpa only [List.contains, List.elem_eq_mem, decide_eq_true_eq] using h
  unfold addFavoriteShow
  simp [hmem]

/-- Claim C7 witness at a concrete input: re-adding show 42 to a store that
already holds it. -/
theorem addFavorite_idempotent_when_present_witness :
    storeWith42.favoritedMedia.contains (favoriteKey showTv42.id) = true ∧
    ((addFavoriteShow (some "user-1") showTv42 storeWith42 false).state = storeWith42 ∧
      (addFavoriteShow (some "user-1") showTv42 storeWith42 false).notifications = [] ∧
      (addFavoriteShow (some "user-1") showTv42 storeWith42 false).remoteCalls = []) :=
  ⟨rfl, addFavorite_idempotent_when_present "user-1" showTv42 storeWith42 false rfl⟩

/-- Claim C9: the rollback of a failed add and the optimistic removal in
remove both filter the favorites list by numeric id alone — every entry
whose id equals the given show's id is removed, whatever its media type,
season or episode, not just the single entry being added or removed. -/
theorem favorites_filtered_by_id_only (uid : String) (s : ShowItem) (st : StoreState)
    (hkey : st.favoritedMedia.contains (favoriteKey s.id) = false) :
    ((addFavoriteShow (some uid) s st true).state.favorites =
      st.favorites.filter (fun f => f.id != s.id)) ∧
    ((addFavoriteShow (some uid) s st true).state.favorites.any
      (fun f => f.id == s.id)) = false ∧
    ((removeFavoriteShow (some uid) s st false).state.favorites =
      st.favorites.filter (fun f => f.id != s.id)) ∧
    ((removeFavoriteShow (some uid) s st false).state.favorites.any
      (fun f => f.id == s.id)) = false := by
  have hadd := addFavoriteShow_guard_failure_favorites uid s st hkey
  have hrem : (removeFavoriteShow (some uid) s st false).state.favorites =
      st.favorites.filter (fun f => f.id != s.id) := rfl
  refine ⟨hadd, ?_, hrem, ?_⟩
  · rw [hadd]
    exact any_beq_filter_bne st.favorites (fun f => f.id) s.id
  · rw [hrem]
    exact any_beq_filter_bne st.favorites (fun f => f.id) s.id

/-- Claim C9 witness at a concrete input: a store whose list holds the TV
episode entry with id 42; a failed add of the movie with id 42 rolls back
by erasing that unrelated entry, and the optimistic removal erases it
too. -/
theorem favorites_filtered_by_id_only_witness :
    (StoreState.mk [showTv42s1e2] []).favoritedMedia.contains
      (favoriteKey showMovie42.id) = false ∧
    (((addFavoriteShow (some "user-1") showMovie42 ⟨[showTv42s1e2], []⟩ true).state.favorites =
        ([showTv42s1e2].filter (fun f => f.id != showMovie42.id))) ∧
      ((addFavoriteShow (some "user-1") showMovie42 ⟨[showTv42s1e2], []⟩ true).state.favorites.any
        (fun f => f.id == showMovie42.id)) = false ∧
      ((removeFavoriteShow (some "user-1") showMovie42 ⟨[showTv42s1e2], []⟩ false).state.favorites =
        ([showTv42s1e2].filter (fun f => f.id != showMovie42.id))) ∧
      ((removeFavoriteShow (some "user-1") showMovie42 ⟨[showTv42s1e2], []⟩ false).state.favorites.any
        (fun f => f.id == showMovie42.id)) = false) :=
  ⟨rfl, favorites_filtered_by_id_only "user-1" showMovie42 ⟨[showTv42s1e2], []⟩ rfl⟩


theorem enrichHistory_eq_map (records : List HistoryRecord)
    (primary : HistoryRecord → Except String Details)
    (episodeFetch : HistoryRecord → Except String EpisodeDetails) :
    enrichHistory records primary episodeFetch =
      records.map (fun r => enrichItem r (primary r) (episodeFetch r)) := by
  unfold enrichHistory successfulResults detailedHistory
  induction records with
  | nil => rfl
  | cons a t ih => simp only [List.map_cons, List.filterMap_cons, ih]

/-- Claim C3: the enrichment fold on N raw records returns exactly N output
records, and each record whose metadata fetch ultimately fails yields the
placeholder record — failed-to-load flag set and synthetic title — rather
than being dropped or returned as null. -/
theorem enrichHistory_length_and_placeholders
    (records : List HistoryRecord)
    (primary : HistoryRecord → Except String Details)
    (episodeFetch : HistoryRecord → Except String EpisodeDetails) :
    (enrichHistory records primary episodeFetch).length = records.length ∧
    (∀ i : Nat, ∀ r : HistoryRecord, records[i]? = some r →
      ∀ e : String, primary r = .error e →
      (enrichHistory records primary episodeFetch)[i]? = some (placeholderItem r) ∧
      (placeholderItem r).failed_to_load = true ∧
      (placeholderItem r).title =
        some (if r.media_type = "tv" then "Unknown TV Show" else "Unknown Movie")) := by
  rw [enrichHistory_eq_map]
  constructor
  · simp
  · intro i r hir e hpe
    refine ⟨?_, rfl, rfl⟩
    rw [List.getElem?_map, hir]
    simp only [Option.map_some']
    unfold enrichItem
    rw [hpe]

/-- Concrete raw record: a movie watched by `u1` whose metadata fetch will
fail. -/
def recA : HistoryRecord := ⟨"u1", 7, "movie", none, none, "2024-01-01", 10, 100⟩

/-- Concrete raw record: a TV episode watched by `u1` whose fetches
succeed. -/
def recB : HistoryRecord := ⟨"u1", 8, "tv", some 1, some 2, "2024-01-02", 20, 200⟩

/-- Concrete primary-fetch oracle: fails on media id 7, succeeds
otherwise. -/
def primary2 : HistoryRecord → Except String Details := fun r =>
  if r.media_id == 7 then .error "HTTP 500: Internal Server Error"
  else .ok ⟨r.media_id, some "Nice Show", some "Nice Show", some "/p.png", some "plot"⟩

/-- Concrete episode-fetch oracle: always succeeds. -/
def episode2 : HistoryRecord → Except String EpisodeDetails := fun _ =>
  .ok ⟨"Ep", some "/still.png", "ep plot"⟩

/-- Claim C3 witness at a concrete input: two records, the first of which
fails its metadata fetch — the output still has two items and the first is
the flagged placeholder. -/
theorem enrichHistory_length_and_placeholders_witness :
    ([recA, recB][0]? = some recA) ∧
    (primary2 recA = .error "HTTP 500: Internal Server Error") ∧
    ((enrichHistory [recA, recB] primary2 episode2).length = 2 ∧
      ((enrichHistory [recA, recB] primary2 episode2)[0]? = some (placeholderItem recA) ∧
        (placeholderItem recA).failed_to_load = true ∧
        (placeholderItem recA).title =
          some (if recA.media_type = "tv" then "Unknown TV Show" else "Unknown Movie"))) :=
  ⟨rfl, rfl,
    (enrichHistory_length_and_placeholders [recA, recB] primary2 episode2).1,
    (enrichHistory_length_and_placeholders [recA, recB] primary2 episode2).2 0 recA rfl
      "HTTP 500: Internal Server Error" rfl⟩

/-- Claim C8: when the remote delete of a history item fails, the delete
handler does not restore the optimistically removed item — the displayed
list stays filtered on the item's `watch_id` (so every item with that key
stays absent from the UI), while the remote store still holds whatever it
held. -/
theorem handleDelete_failure_not_restored (history : List EnrichedItem)
    (remote : List String) (item : EnrichedItem) :
    (handleDelete history remote item true).history =
      history.filter (fun it => it.watch_id != item.watch_id) ∧
    ((handleDelete history remote item true).history.any
      (fun it => it.watch_id == item.watch_id)) = false ∧
    (handleDelete history remote item true).remote = remote := by
  refine ⟨rfl, ?_, rfl⟩
  exact any_beq_filter_bne history (fun it => it.watch_id) item.watch_id

theorem fetchWithRetryGo_count_le (oracle : Nat → AttemptOutcome) (m : Nat) :
    ∀ fuel i, m - i ≤ fuel → i ≤ m → (fetchWithRetryGo oracle m i).2 ≤ m := by
  intro fuel
  induction fuel with
  | zero =>
    intro i hf hi
    have hnot : ¬ i < m := by omega
    unfold fetchWithRetryGo
    rw [dif_neg hnot]
    exact hi
  | succ n ih =>
    intro i hf hi
    unfold fetchWithRetryGo
    split
    · rename_i hlt
      split
      · show i + 1 ≤ m
        omega
      · split
        · show i + 1 ≤ m
          omega
        · exact ih (i + 1) (by omega) (by omega)
    · exact hi

theorem fetchWithRetryGo_success (oracle : Nat → AttemptOutcome) (m : Nat) :
    ∀ fuel i j r, j - i ≤ fuel → i ≤ j → j < m →
      (∀ k, i ≤ k → k < j → ∃ e, attemptResult (oracle k) = .error e) →
      attemptResult (oracle j) = .ok r →
      fetchWithRetryGo oracle m i = (.ok (some r), j + 1) := by
  intro fuel
  induction fuel with
  | zero =>
    intro i j r hf hij hjm hfail hok
    have hij' : i = j := by omega
    subst hij'
    unfold fetchWithRetryGo
    rw [dif_pos (show i < m by omega)]
    simp only [hok]
  | succ n ih =>
    intro i j r hf hij hjm hfail hok
    by_cases hij' : i = j
    · subst hij'
      unfold fetchWithRetryGo
      rw [dif_pos (show i < m by omega)]
      simp only [hok]
    · obtain ⟨e, he⟩ := hfail i (le_refl i) (by omega)
      unfold fetchWithRetryGo
      rw [dif_pos (show i < m by omega)]
      simp only [he]
      rw [if_neg (show ¬ i = m - 1 by omega)]
      exact ih (i + 1) j r (by omega) (by omega) hjm
        (fun k hk1 hk2 => hfail k (by omega) hk2) hok

theorem fetchWithRetryGo_allFail (oracle : Nat → AttemptOutcome) (m : Nat)
    (errs : Nat → String) :
    ∀ fuel i, m - i ≤ fuel → i < m →
      (∀ k, i ≤ k → k < m → attemptResult (oracle k) = .error (errs k)) →
      fetchWithRetryGo oracle m i = (.error (errs (m - 1)), m) := by
  intro fuel
  induction fuel with
  | zero =>
    intro i hf hi hfail
    omega
  | succ n ih =>
    intro i hf hi hfail
    unfold fetchWithRetryGo
    rw [dif_pos hi]
    simp only [hfail i (le_refl i) hi]
    by_cases hl : i = m - 1
    · rw [if_pos hl, hl]
      have hm1 : m - 1 + 1 = m := by omega
      rw [hm1]
    · rw [if_neg hl]
      exact ih (i + 1) (by omega) (by omega) (fun k hk1 hk2 => hfail k (by omega) hk2)

/-- Claim C4: `fetchWithRetry` performs at most `maxRetries` attempts; an
attempt that succeeds returns that success immediately after exactly its
own attempt count (failing the first attempts and succeeding at attempt
`j + 1` yields the success with `j + 1` attempts), and when every attempt
fails, the failure of the last attempt propagates to the caller after
exactly `maxRetries` attempts. -/
theorem fetchWithRetry_attempt_semantics (oracle : Nat → AttemptOutcome) (m : Nat) :
    (fetchWithRetry oracle (Int.ofNat m)).2 ≤ m ∧
    (∀ j r, j < m → (∀ k, k < j → ∃ e, attemptResult (oracle k) = .error e) →
      attemptResult (oracle j) = .ok r →
      fetchWithRetry oracle (Int.ofNat m) = (.ok (some r), j + 1)) ∧
    (∀ errs : Nat → String, 0 < m →
      (∀ k, k < m → attemptResult (oracle k) = .error (errs k)) →
      fetchWithRetry oracle (Int.ofNat m) = (.error (errs (m - 1)), m)) := by
  have heq : fetchWithRetry oracle (Int.ofNat m) = fetchWithRetryGo oracle m 0 := rfl
  refine ⟨?_, ?_, ?_⟩
  · rw [heq]
    exact fetchWithRetryGo_count_le oracle m m 0 (by omega) (by omega)
  · intro j r hj hfail hok
    rw [heq]
    exact fetchWithRetryGo_success oracle m j 0 j r (by omega) (by omega) hj
      (fun k _ hk2 => hfail k hk2) hok
  · intro errs hm hfail
    rw [heq]
    exact fetchWithRetryGo_allFail oracle m errs m 0 (by omega) hm
      (fun k _ hk2 => hfail k hk2)

/-- Concrete ok response. -/
def respOk : Response := ⟨true, 200, "OK"⟩

/-- Concrete endpoint that times out on the first two attempts and answers
the third. -/
def flaky3 : Nat → AttemptOutcome := fun k =>
  if k < 2 then AttemptOutcome.timeout else AttemptOutcome.response respOk

/-- Concrete endpoint that times out on every attempt. -/
def alwaysTimeout : Nat → AttemptOutcome := fun _ => AttemptOutcome.timeout

/-- Claim C4 witness at concrete inputs: the flaky endpoint succeeds after
exactly 3 attempts with `maxRetries = 3`; the always-timing-out endpoint
propagates the timeout failure after exactly 3 attempts. -/
theorem fetchWithRetry_attempt_semantics_witness :
    attemptResult (flaky3 2) = .ok respOk ∧
    fetchWithRetry flaky3 (Int.ofNat 3) = (.ok (some respOk), 3) ∧
    fetchWithRetry alwaysTimeout (Int.ofNat 3) = (.error "Request timeout", 3) := by
  refine ⟨rfl, ?_, ?_⟩
  · exact (fetchWithRetry_attempt_semantics flaky3 3).2.1 2 respOk (by omega)
      (fun k hk => ⟨"Request timeout", by unfold flaky3; rw [if_pos hk]; rfl⟩) rfl
  · exact (fetchWithRetry_attempt_semantics alwaysTimeout 3).2.2
      (fun _ => "Request timeout") (by omega) (fun k _ => rfl)

/-- Claim C10: calling `fetchWithRetry` with a non-positive `maxRetries`
never executes the loop body — no attempt is made, nothing is thrown and
the call resolves with `undefined` (modelled as `Except.ok none`). -/
theorem fetchWithRetry_nonpositive_maxRetries (oracle : Nat → AttemptOutcome)
    (m : Int) (hm : m ≤ 0) :
    fetchWithRetry oracle m = (.ok none, 0) := by
  unfold fetchWithRetry
  have h0 : m.toNat = 0 := Int.toNat_of_nonpos hm
  rw [h0]
  unfold fetchWithRetryGo
  rfl

/-- Claim C10 witness at a concrete input: `maxRetries = -1` resolves to
`undefined` with zero attempts. -/
theorem fetchWithRetry_nonpositive_maxRetries_witness :
    ((-1 : Int) ≤ 0) ∧ fetchWithRetry alwaysTimeout (-1) = (.ok none, 0) :=
  ⟨by decide, fetchWithRetry_nonpositive_maxRetries alwaysTimeout (-1) (by decide)⟩
